import Mathlib

/-!
Shallow embedding of the data-access layer of a multi-tenant learning-record
store (lib/lrs-users/api.js, the course module and the tenant module).

The relational store is modelled as explicit lists of rows threaded through
each operation.  A store call that may fail takes its outcome as an explicit
parameter (none = the call succeeds, some msg = the call fails with that
message), mirroring the node-style error-first callbacks of the source.
Numeric SQL values (EXTRACT year and month, counts, ids) are modelled as Nat.
-/

namespace CloudLRS

/-- An error value passed to a node-style callback: a numeric code and a
message, as built by the literal objects with code and msg in the source. -/
structure ApiError where
  code : Nat
  msg : String
deriving Repr, DecidableEq

/-! ### Monthly activity series: getTotalActivities -/

/-- One row of the grouped SQL result of getTotalActivities: EXTRACT(year),
EXTRACT(month) and the count of statements in that month. -/
structure MonthRow where
  year : Nat
  month : Nat
  total : Nat
deriving Repr, DecidableEq

/-- One element pushed onto totalActivities.  The source renders the period as
a formatted month-name string via moment; we keep the underlying (year, month)
pair.  The current flag compares the period against the wall clock, which the
embedding receives as an explicit (year, month) argument. -/
structure SeriesEntry where
  year : Nat
  month : Nat
  total : Nat
  current : Bool
deriving Repr, DecidableEq

/-- Linear index of a calendar month, used only in specifications and proofs:
twelve times the year plus the month. -/
def toIdx (y m : Nat) : Nat := 12 * y + m

/-- The month-advance step at the bottom of the while loop of
getTotalActivities: December wraps to January of the next year, any other
month is incremented. -/
def nextMonth (y m : Nat) : Nat × Nat :=
  if m = 12 then (y + 1, 1) else (y, m + 1)

/-- The body of one loop iteration of getTotalActivities: look up the current
(year, month) among the query rows with lodash find, emit its total or zero,
and flag the current calendar month. -/
def mkEntry (now : Nat × Nat) (rows : List MonthRow) (cy cm : Nat) : SeriesEntry :=
  { year := cy
    month := cm
    total :=
      match rows.find? (fun r => r.year == cy && r.month == cm) with
      | some r => r.total
      | none => 0
    current := now.1 == cy && now.2 == cm }

/-- The while loop of getTotalActivities.  The source loops while
currentYear or currentMonth differs from the precomputed bound
(lastActivityYear, lastActivityMonth); the loop has no other exit, so the
embedding uses explicit fuel and returns none when the bound is never reached
within the fuel, modelling divergence. -/
def monthLoop (now : Nat × Nat) (rows : List MonthRow) (ly lm : Nat) :
    Nat → Nat → Nat → List SeriesEntry → Option (List SeriesEntry)
  | 0, _, _, _ => none
  | fuel + 1, cy, cm, acc =>
    if cy = ly ∧ cm = lm then
      some acc.reverse
    else
      monthLoop now rows ly lm fuel (nextMonth cy cm).1 (nextMonth cy cm).2
        (mkEntry now rows cy cm :: acc)

/-- In-memory reshaping of getTotalActivities after a successful query: empty
results return an empty list; otherwise the loop starts at the first row and
its bound is the last row's year paired with the last row's month plus one,
taken verbatim from the source without December normalization.  The fuel is
an upper bound on the iterations of every terminating run. -/
def getTotalActivities (now : Nat × Nat) (rows : List MonthRow) :
    Option (List SeriesEntry) :=
  match rows with
  | [] => some []
  | r0 :: rest =>
    let lastRow := (r0 :: rest).getLast (List.cons_ne_nil r0 rest)
    monthLoop now (r0 :: rest) lastRow.year (lastRow.month + 1)
      (toIdx lastRow.year lastRow.month + 2) r0.year r0.month []

/-- Specification-side dense series: d entries starting at (cy, cm), advancing
with nextMonth; compared against the loop output in the proofs. -/
def denseFrom (now : Nat × Nat) (rows : List MonthRow) :
    Nat → Nat → Nat → List SeriesEntry
  | _, _, 0 => []
  | cy, cm, d + 1 =>
    mkEntry now rows cy cm ::
      denseFrom now rows (nextMonth cy cm).1 (nextMonth cy cm).2 d

/-- Strict lexicographic order on the (year, month) key of a query row. -/
def monthLt (a b : MonthRow) : Prop :=
  a.year < b.year ∨ (a.year = b.year ∧ a.month < b.month)

theorem toIdx_nextMonth (y m : Nat) :
    toIdx (nextMonth y m).1 (nextMonth y m).2 = toIdx y m + 1 := by
  unfold nextMonth
  by_cases h : m = 12
  · rw [if_pos h]
    simp only [toIdx]
    omega
  · rw [if_neg h]
    simp only [toIdx]
    omega

theorem nextMonth_bounds (y m : Nat) (h1 : 1 ≤ m) (h2 : m ≤ 12) :
    1 ≤ (nextMonth y m).2 ∧ (nextMonth y m).2 ≤ 12 := by
  by_cases h : m = 12
  · subst h
    simp [nextMonth]
  · simp only [nextMonth, if_neg h]
    omega

theorem nextMonth_le (y m : Nat) (h2 : m ≤ 12) : (nextMonth y m).2 ≤ 12 := by
  by_cases h : m = 12
  · subst h
    simp [nextMonth]
  · simp only [nextMonth, if_neg h]
    omega

theorem toIdx_inj {y m y2 m2 : Nat} (h1 : 1 ≤ m) (h2 : m ≤ 12)
    (h3 : 1 ≤ m2) (h4 : m2 ≤ 12) (h : toIdx y m = toIdx y2 m2) :
    y = y2 ∧ m = m2 := by
  simp only [toIdx] at h
  omega

theorem monthLoop_eq_denseFrom (now : Nat × Nat) (rows : List MonthRow)
    (ly lm : Nat) (h3 : 1 ≤ lm) (h4 : lm ≤ 12) :
    ∀ d fuel cy cm acc, 1 ≤ cm → cm ≤ 12 → toIdx ly lm = toIdx cy cm + d →
      d < fuel →
      monthLoop now rows ly lm fuel cy cm acc
        = some (acc.reverse ++ denseFrom now rows cy cm d) := by
  intro d
  induction d with
  | zero =>
    intro fuel cy cm acc hc1 hc2 hidx hfuel
    match fuel, hfuel with
    | fuel + 1, _ =>
      obtain ⟨hy, hm⟩ := toIdx_inj h3 h4 hc1 hc2 hidx
      simp [monthLoop, hy, hm, denseFrom]
  | succ d ih =>
    intro fuel cy cm acc hc1 hc2 hidx hfuel
    match fuel, hfuel with
    | fuel + 1, hfuel =>
      have hne : ¬(cy = ly ∧ cm = lm) := by
        rintro ⟨rfl, rfl⟩
        simp only [toIdx] at hidx
        omega
      have hb := nextMonth_bounds cy cm hc1 hc2
      have hidx2 : toIdx ly lm
          = toIdx (nextMonth cy cm).1 (nextMonth cy cm).2 + d := by
        rw [toIdx_nextMonth cy cm]
        omega
      simp only [monthLoop, if_neg hne]
      rw [ih fuel _ _ _ hb.1 hb.2 hidx2 (by omega)]
      simp [denseFrom]

theorem monthLoop_unreachable (now : Nat × Nat) (rows : List MonthRow)
    (ly : Nat) :
    ∀ fuel cy cm acc, cm ≤ 12 →
      monthLoop now rows ly 13 fuel cy cm acc = none := by
  intro fuel
  induction fuel with
  | zero =>
    intro cy cm acc _
    rfl
  | succ fuel ih =>
    intro cy cm acc hcm
    have hne : ¬(cy = ly ∧ cm = 13) := by
      rintro ⟨h1, h2⟩
      omega
    simp only [monthLoop, if_neg hne]
    exact ih _ _ _ (nextMonth_le cy cm hcm)

theorem denseFrom_length (now : Nat × Nat) (rows : List MonthRow) :
    ∀ d cy cm, (denseFrom now rows cy cm d).length = d := by
  intro d
  induction d with
  | zero => intro cy cm; rfl
  | succ d ih => intro cy cm; simp [denseFrom, ih]

theorem denseFrom_map_toIdx (now : Nat × Nat) (rows : List MonthRow) :
    ∀ d cy cm, 1 ≤ cm → cm ≤ 12 →
      (denseFrom now rows cy cm d).map (fun e => toIdx e.year e.month)
        = List.range' (toIdx cy cm) d := by
  intro d
  induction d with
  | zero => intro cy cm _ _; rfl
  | succ d ih =>
    intro cy cm h1 h2
    have hb := nextMonth_bounds cy cm h1 h2
    simp only [denseFrom, List.map_cons, List.range'_succ]
    congr 1
    rw [ih _ _ hb.1 hb.2, toIdx_nextMonth cy cm]

theorem denseFrom_total_zero (now : Nat × Nat) (rows : List MonthRow) :
    ∀ d cy cm, ∀ e ∈ denseFrom now rows cy cm d,
      (∀ r ∈ rows, ¬(r.year = e.year ∧ r.month = e.month)) → e.total = 0 := by
  intro d
  induction d with
  | zero =>
    intro cy cm e he
    cases he
  | succ d ih =>
    intro cy cm e he habs
    simp only [denseFrom, List.mem_cons] at he
    rcases he with rfl | he
    · have hnone : rows.find? (fun r => r.year == cy && r.month == cm)
          = none := by
        rw [List.find?_eq_none]
        intro r hr
        have := habs r hr
        simp only [mkEntry] at this
        simp only [Bool.and_eq_true, beq_iff_eq]
        tauto
      simp [mkEntry, hnone]
    · exact ih _ _ e he habs

theorem chain_toIdx_le_getLast :
    ∀ (rest : List MonthRow) (r0 : MonthRow),
      (∀ r ∈ r0 :: rest, 1 ≤ r.month ∧ r.month ≤ 12) →
      List.Chain' monthLt (r0 :: rest) →
      toIdx r0.year r0.month
        ≤ toIdx ((r0 :: rest).getLast (List.cons_ne_nil r0 rest)).year
            ((r0 :: rest).getLast (List.cons_ne_nil r0 rest)).month := by
  intro rest
  induction rest with
  | nil =>
    intro r0 _ _
    simp
  | cons r1 rest2 ih =>
    intro r0 hcal hchain
    rw [List.getLast_cons (List.cons_ne_nil r1 rest2)]
    have h01 : monthLt r0 r1 := (List.chain'_cons.mp hchain).1
    have hch : List.Chain' monthLt (r1 :: rest2) := (List.chain'_cons.mp hchain).2
    have hcal1 : ∀ r ∈ r1 :: rest2, 1 ≤ r.month ∧ r.month ≤ 12 := by
      intro r hr
      exact hcal r (List.mem_cons_of_mem r0 hr)
    have hlast := ih r1 hcal1 hch
    have hm0 := (hcal r0 (List.mem_cons_self r0 (r1 :: rest2))).2
    have hm1 := (hcal r1 (List.mem_cons_of_mem r0
      (List.mem_cons_self r1 rest2))).1
    have hlt : toIdx r0.year r0.month < toIdx r1.year r1.month := by
      rcases h01 with h | ⟨he, hm⟩
      · simp only [toIdx]
        omega
      · simp only [toIdx]
        omega
    omega

/-- C1 (amended): for every non-empty input of calendar-valid rows with
strictly increasing (year, month) whose last row is not a December row,
getTotalActivities returns a series with one entry per calendar month from
the first to the last input month inclusive, in chronological order (the
month indices form the contiguous range), and every month absent from the
input has total 0. -/
theorem getTotalActivities_dense_series (now : Nat × Nat) (r0 lr : MonthRow)
    (rest : List MonthRow)
    (hlr : (r0 :: rest).getLast (List.cons_ne_nil r0 rest) = lr)
    (hcal : ∀ r ∈ r0 :: rest, 1 ≤ r.month ∧ r.month ≤ 12)
    (hmono : List.Chain' monthLt (r0 :: rest))
    (hdec : lr.month ≠ 12) :
    ∃ s, getTotalActivities now (r0 :: rest) = some s ∧
      s.length = toIdx lr.year lr.month + 1 - toIdx r0.year r0.month ∧
      s.map (fun e => toIdx e.year e.month)
        = List.range' (toIdx r0.year r0.month)
            (toIdx lr.year lr.month + 1 - toIdx r0.year r0.month) ∧
      ∀ e ∈ s, (∀ r ∈ r0 :: rest, ¬(r.year = e.year ∧ r.month = e.month)) →
        e.total = 0 := by
  have hle := chain_toIdx_le_getLast rest r0 hcal hmono
  rw [hlr] at hle
  have hm0 := hcal r0 (List.mem_cons_self r0 rest)
  have hmlr : 1 ≤ lr.month ∧ lr.month ≤ 12 := by
    rw [← hlr]
    exact hcal _ (List.getLast_mem (List.cons_ne_nil r0 rest))
  refine ⟨denseFrom now (r0 :: rest) r0.year r0.month
      (toIdx lr.year lr.month + 1 - toIdx r0.year r0.month), ?_, ?_, ?_, ?_⟩
  · have hrun := monthLoop_eq_denseFrom now (r0 :: rest) lr.year
      (lr.month + 1) (by omega) (by omega)
      (toIdx lr.year lr.month + 1 - toIdx r0.year r0.month)
      (toIdx lr.year lr.month + 2) r0.year r0.month [] hm0.1 hm0.2
      (by simp only [toIdx] at hle ⊢; omega)
      (by simp only [toIdx] at hle ⊢; omega)
    show monthLoop now (r0 :: rest)
        ((r0 :: rest).getLast (List.cons_ne_nil r0 rest)).year
        (((r0 :: rest).getLast (List.cons_ne_nil r0 rest)).month + 1)
        (toIdx ((r0 :: rest).getLast (List.cons_ne_nil r0 rest)).year
          ((r0 :: rest).getLast (List.cons_ne_nil r0 rest)).month + 2)
        r0.year r0.month []
      = some (denseFrom now (r0 :: rest) r0.year r0.month
          (toIdx lr.year lr.month + 1 - toIdx r0.year r0.month))
    rw [hlr, hrun]
    simp
  · exact denseFrom_length now (r0 :: rest) _ r0.year r0.month
  · exact denseFrom_map_toIdx now (r0 :: rest) _ r0.year r0.month hm0.1 hm0.2
  · exact denseFrom_total_zero now (r0 :: rest) _ r0.year r0.month

/-- Witness for C1 on the example of the spec: rows (2023, 11, 5) and
(2024, 2, 3) yield the four months November 2023 through February 2024. -/
theorem getTotalActivities_dense_series_witness :
    ∃ s, getTotalActivities (2025, 10) [⟨2023, 11, 5⟩, ⟨2024, 2, 3⟩]
        = some s ∧
      s.length = toIdx 2024 2 + 1 - toIdx 2023 11 ∧
      s.map (fun e => toIdx e.year e.month)
        = List.range' (toIdx 2023 11) (toIdx 2024 2 + 1 - toIdx 2023 11) ∧
      ∀ e ∈ s,
        (∀ r ∈ [(⟨2023, 11, 5⟩ : MonthRow), ⟨2024, 2, 3⟩],
          ¬(r.year = e.year ∧ r.month = e.month)) → e.total = 0 :=
  getTotalActivities_dense_series (2025, 10) ⟨2023, 11, 5⟩ ⟨2024, 2, 3⟩
    [⟨2024, 2, 3⟩] rfl (by decide)
    (List.chain'_cons.mpr ⟨Or.inl (by decide), List.chain'_singleton _⟩)
    (by decide)

/-- C1 counterexample: on the single December row (2023, 12, 5) the claim
fails: the loop bound is the unnormalized month 13, the wrapping counter
never reaches it, and no series is returned at all (every fuel is
exhausted), instead of the claimed one-month series. -/
theorem getTotalActivities_december_no_series :
    getTotalActivities (2025, 10) [⟨2023, 12, 5⟩] = none := by
  show monthLoop (2025, 10) [⟨2023, 12, 5⟩] 2023 (12 + 1)
      (toIdx 2023 12 + 2) 2023 12 [] = none
  exact monthLoop_unreachable (2025, 10) [⟨2023, 12, 5⟩] 2023 _ 2023 12 []
    (by omega)

/-- C2: the claim is right about the required behavior and the code is
wrong: the loop bound last month plus one is compared without normalizing
the December wrap, so for an input ending in December, here (2024, 12, 7),
the bound is the unreachable month 13 and the month-filling loop never
terminates: it returns none for every fuel, and so does getTotalActivities
with its fixed fuel. -/
theorem getTotalActivities_december_loop_diverges :
    (∀ fuel acc,
      monthLoop (2025, 1) [⟨2024, 12, 7⟩] 2024 13 fuel 2024 12 acc
        = none) ∧
    getTotalActivities (2025, 1) [⟨2024, 12, 7⟩] = none := by
  constructor
  · intro fuel acc
    exact monthLoop_unreachable (2025, 1) [⟨2024, 12, 7⟩] 2024 fuel 2024 12
      acc (by omega)
  · show monthLoop (2025, 1) [⟨2024, 12, 7⟩] 2024 (12 + 1)
        (toIdx 2024 12 + 2) 2024 12 [] = none
    exact monthLoop_unreachable (2025, 1) [⟨2024, 12, 7⟩] 2024 _ 2024 12 []
      (by omega)

/-! ### Users: getUserByExternalId, getOrCreateUser -/

/-- A row of the users table; external_id plus tenant_id is the natural key. -/
structure UserRow where
  id : Nat
  external_id : String
  tenant_id : Nat
  name : Option String
deriving Repr, DecidableEq

/-- The users table together with the id the store would assign to the next
created row. -/
structure UserStore where
  rows : List UserRow
  nextId : Nat
deriving Repr, DecidableEq

/-- The where clause shared by getUserByExternalId and getOrCreateUser. -/
def userKey (eid : String) (tid : Nat) (r : UserRow) : Bool :=
  r.external_id == eid && r.tenant_id == tid

/-- getUserByExternalId after its parameter validation (typed inputs always
satisfy the Joi schema of a required string and a required number): findOne
on the natural key; a store failure is wrapped as code 500; a missing user is
only logged and the callback receives a null user with no error. -/
def getUserByExternalId (storeFail : Option String) (store : List UserRow)
    (externalId : String) (tenantId : Nat) : Except ApiError (Option UserRow) :=
  match storeFail with
  | some m => .error ⟨500, m⟩
  | none => .ok (store.find? (userKey externalId tenantId))

/-- getOrCreateUser after validation: findOrCreate on the natural key with the
name as the creation default.  When the row already exists the stored row is
returned unchanged; the defaults are applied only on creation. -/
def getOrCreateUser (storeFail : Option String) (s : UserStore)
    (externalId : String) (tenantId : Nat) (name : Option String) :
    Except ApiError UserRow × UserStore :=
  match storeFail with
  | some m => (.error ⟨500, m⟩, s)
  | none =>
    match s.rows.find? (userKey externalId tenantId) with
    | some r => (.ok r, s)
    | none =>
      let r : UserRow := ⟨s.nextId, externalId, tenantId, name⟩
      (.ok r, ⟨s.rows ++ [r], s.nextId + 1⟩)

/-! ### Courses: getOrCreateCourse, getCourse -/

/-- A row of the courses table; canvas_course_id plus tenant_id is the
natural key, the tenant id being the id of the canvas argument. -/
structure CourseRow where
  id : Nat
  canvas_course_id : Nat
  tenant_id : Nat
  name : Option String
  privacydashboard_url : Option String
deriving Repr, DecidableEq

/-- The courseInfo argument of getOrCreateCourse; both keys are optional in
the Joi schema. -/
structure CourseInfo where
  name : Option String
  privacydashboard_url : Option String
deriving Repr, DecidableEq

/-- The courses table together with the next assigned id. -/
structure CourseStore where
  rows : List CourseRow
  nextId : Nat
deriving Repr, DecidableEq

/-- The where clause on the natural key of a course. -/
def courseKey (cid tid : Nat) (r : CourseRow) : Bool :=
  r.canvas_course_id == cid && r.tenant_id == tid

/-- A sequelize instance update with a partial patch: attributes present in
the patch overwrite, absent (undefined) attributes are left unchanged. -/
def applyCourseInfo (info : CourseInfo) (r : CourseRow) : CourseRow :=
  { r with
    name := info.name.or r.name
    privacydashboard_url := info.privacydashboard_url.or r.privacydashboard_url }

/-- getOrCreateCourse after validation (typed inputs satisfy the schema):
findOrCreate on the natural key with the course info as creation defaults;
when the row already exists it is updated with the supplied info and the
updated row is returned.  A failure of either store call is wrapped as 500. -/
def getOrCreateCourse (storeFail : Option String) (s : CourseStore)
    (canvasCourseId tenantId : Nat) (info : CourseInfo) :
    Except ApiError CourseRow × CourseStore :=
  match storeFail with
  | some m => (.error ⟨500, m⟩, s)
  | none =>
    match s.rows.find? (courseKey canvasCourseId tenantId) with
    | some r =>
      (.ok (applyCourseInfo info r),
        ⟨s.rows.map (fun q => if q.id = r.id then applyCourseInfo info q else q),
          s.nextId⟩)
    | none =>
      let r : CourseRow :=
        ⟨s.nextId, canvasCourseId, tenantId, info.name, info.privacydashboard_url⟩
      (.ok r, ⟨s.rows ++ [r], s.nextId + 1⟩)

/-- getCourse: findByPk; a store failure is wrapped as 500 and a missing row
is reported as a 404 error. -/
def getCourse (storeFail : Option String) (store : List CourseRow) (id : Nat) :
    Except ApiError CourseRow :=
  match storeFail with
  | some m => .error ⟨500, m⟩
  | none =>
    match store.find? (fun r => r.id == id) with
    | some c => .ok c
    | none => .error ⟨404, "Failed to retrieve the course"⟩

/-- C3 counterexample: the second getOrCreateUser call with the same natural
key and a new name returns the stored row with the original name Alice, not
a row updated with the newly supplied name Bob, so the claim that both
operations update the existing row with the new defaults is false. -/
theorem getOrCreateUser_keeps_old_name :
    (getOrCreateUser none
        (getOrCreateUser none ⟨[], 1⟩ "u1" 7 (some "Alice")).2
        "u1" 7 (some "Bob")).1
      = .ok ⟨1, "u1", 7, some "Alice"⟩ ∧
    (⟨1, "u1", 7, some "Alice"⟩ : UserRow).name ≠ some "Bob" := by
  exact ⟨rfl, by decide⟩

theorem filter_update_map (cid ctid rid : Nat) (i2 : CourseInfo)
    (l : List CourseRow) (hl : ∀ r ∈ l, courseKey cid ctid r = false) :
    (l.map (fun q => if q.id = rid then applyCourseInfo i2 q else q)).filter
      (courseKey cid ctid) = [] := by
  rw [List.filter_eq_nil_iff]
  intro a ha
  obtain ⟨r, hr, rfl⟩ := List.mem_map.mp ha
  have hfalse := hl r hr
  by_cases hid : r.id = rid
  · simp only [if_pos hid]
    intro hkeyt
    rw [show courseKey cid ctid (applyCourseInfo i2 r) = courseKey cid ctid r
      from rfl, hfalse] at hkeyt
    cases hkeyt
  · simp only [if_neg hid]
    simp [hfalse]

/-- C3 (amended): for a fresh natural key, the first call to getOrCreateUser
or getOrCreateCourse creates and persists exactly one row without error; the
second call with the same key returns the existing row without creating a
duplicate, where getOrCreateCourse additionally updates the row with the
newly supplied course info while getOrCreateUser returns the stored row
unchanged, not applying the new name. -/
theorem getOrCreate_second_call_behavior (us : UserStore) (cs : CourseStore)
    (eid : String) (utid cid ctid : Nat) (n1 n2 : Option String)
    (i1 i2 : CourseInfo)
    (hu : us.rows.find? (userKey eid utid) = none)
    (hc : cs.rows.find? (courseKey cid ctid) = none) :
    (getOrCreateUser none us eid utid n1).1
        = .ok ⟨us.nextId, eid, utid, n1⟩ ∧
    ((getOrCreateUser none us eid utid n1).2).rows.filter (userKey eid utid)
        = [⟨us.nextId, eid, utid, n1⟩] ∧
    (getOrCreateUser none (getOrCreateUser none us eid utid n1).2
        eid utid n2).1
        = .ok ⟨us.nextId, eid, utid, n1⟩ ∧
    (getOrCreateUser none (getOrCreateUser none us eid utid n1).2
        eid utid n2).2
        = (getOrCreateUser none us eid utid n1).2 ∧
    (getOrCreateCourse none cs cid ctid i1).1
        = .ok ⟨cs.nextId, cid, ctid, i1.name, i1.privacydashboard_url⟩ ∧
    (getOrCreateCourse none (getOrCreateCourse none cs cid ctid i1).2
        cid ctid i2).1
        = .ok (applyCourseInfo i2
            ⟨cs.nextId, cid, ctid, i1.name, i1.privacydashboard_url⟩) ∧
    ((getOrCreateCourse none (getOrCreateCourse none cs cid ctid i1).2
        cid ctid i2).2).rows.filter (courseKey cid ctid)
        = [applyCourseInfo i2
            ⟨cs.nextId, cid, ctid, i1.name, i1.privacydashboard_url⟩] := by
  have hukey : userKey eid utid ⟨us.nextId, eid, utid, n1⟩ = true := by
    simp [userKey]
  have hufilter : us.rows.filter (userKey eid utid) = [] := by
    rw [List.filter_eq_nil_iff]
    intro a ha
    simpa using List.find?_eq_none.mp hu a ha
  have h1 : getOrCreateUser none us eid utid n1
      = (.ok ⟨us.nextId, eid, utid, n1⟩,
          ⟨us.rows ++ [⟨us.nextId, eid, utid, n1⟩], us.nextId + 1⟩) := by
    simp only [getOrCreateUser, hu]
  have hufind2 : (us.rows ++ [(⟨us.nextId, eid, utid, n1⟩ : UserRow)]).find?
      (userKey eid utid) = some ⟨us.nextId, eid, utid, n1⟩ := by
    rw [List.find?_append, hu]
    simp [List.find?_cons, hukey]
  have h2 : getOrCreateUser none
      (⟨us.rows ++ [⟨us.nextId, eid, utid, n1⟩], us.nextId + 1⟩ : UserStore)
      eid utid n2
      = (.ok ⟨us.nextId, eid, utid, n1⟩,
          ⟨us.rows ++ [⟨us.nextId, eid, utid, n1⟩], us.nextId + 1⟩) := by
    simp only [getOrCreateUser, hufind2]
  have hckey : courseKey cid ctid
      ⟨cs.nextId, cid, ctid, i1.name, i1.privacydashboard_url⟩ = true := by
    simp [courseKey]
  have hcrows : ∀ r ∈ cs.rows, courseKey cid ctid r = false := by
    intro r hr
    simpa using List.find?_eq_none.mp hc r hr
  have h3 : getOrCreateCourse none cs cid ctid i1
      = (.ok ⟨cs.nextId, cid, ctid, i1.name, i1.privacydashboard_url⟩,
          ⟨cs.rows
              ++ [⟨cs.nextId, cid, ctid, i1.name, i1.privacydashboard_url⟩],
            cs.nextId + 1⟩) := by
    simp only [getOrCreateCourse, hc]
  have hcfind2 : (cs.rows
      ++ [(⟨cs.nextId, cid, ctid, i1.name, i1.privacydashboard_url⟩ :
        CourseRow)]).find? (courseKey cid ctid)
      = some ⟨cs.nextId, cid, ctid, i1.name, i1.privacydashboard_url⟩ := by
    rw [List.find?_append, hc]
    simp [List.find?_cons, hckey]
  have htrue : courseKey cid ctid (applyCourseInfo i2
      ⟨cs.nextId, cid, ctid, i1.name, i1.privacydashboard_url⟩) = true := by
    rw [show courseKey cid ctid (applyCourseInfo i2
        ⟨cs.nextId, cid, ctid, i1.name, i1.privacydashboard_url⟩)
      = courseKey cid ctid
        (⟨cs.nextId, cid, ctid, i1.name, i1.privacydashboard_url⟩ : CourseRow)
      from rfl]
    exact hckey
  refine ⟨by rw [h1], ?_, ?_, ?_, by rw [h3], ?_, ?_⟩
  · rw [h1]
    show (us.rows ++ [(⟨us.nextId, eid, utid, n1⟩ : UserRow)]).filter
        (userKey eid utid) = _
    rw [List.filter_append, hufilter]
    simp [List.filter_cons, hukey]
  · rw [h1]
    show (getOrCreateUser none
        (⟨us.rows ++ [⟨us.nextId, eid, utid, n1⟩], us.nextId + 1⟩ : UserStore)
        eid utid n2).1 = _
    rw [h2]
  · rw [h1]
    show (getOrCreateUser none
        (⟨us.rows ++ [⟨us.nextId, eid, utid, n1⟩], us.nextId + 1⟩ : UserStore)
        eid utid n2).2 = _
    rw [h2]
  · rw [h3]
    show (getOrCreateCourse none
        (⟨cs.rows ++ [⟨cs.nextId, cid, ctid, i1.name, i1.privacydashboard_url⟩],
          cs.nextId + 1⟩ : CourseStore) cid ctid i2).1 = _
    simp only [getOrCreateCourse, hcfind2]
  · rw [h3]
    show (getOrCreateCourse none
        (⟨cs.rows ++ [⟨cs.nextId, cid, ctid, i1.name, i1.privacydashboard_url⟩],
          cs.nextId + 1⟩ : CourseStore) cid ctid i2).2.rows.filter
        (courseKey cid ctid) = _
    simp only [getOrCreateCourse, hcfind2]
    rw [List.map_append, List.filter_append,
      filter_update_map cid ctid _ i2 cs.rows hcrows]
    simp only [List.map_cons, List.map_nil, List.nil_append]
    simp [List.filter_cons, htrue]

/-- Witness for C3 on empty stores: user u1 of tenant 7 created as Alice and
re-requested as Bob, course 9 of tenant 3 created and then updated. -/
theorem getOrCreate_second_call_behavior_witness :
    (getOrCreateUser none ⟨[], 1⟩ "u1" 7 (some "Alice")).1
        = .ok ⟨1, "u1", 7, some "Alice"⟩ ∧
    ((getOrCreateUser none ⟨[], 1⟩ "u1" 7 (some "Alice")).2).rows.filter
        (userKey "u1" 7)
        = [⟨1, "u1", 7, some "Alice"⟩] ∧
    (getOrCreateUser none (getOrCreateUser none ⟨[], 1⟩ "u1" 7
        (some "Alice")).2 "u1" 7 (some "Bob")).1
        = .ok ⟨1, "u1", 7, some "Alice"⟩ ∧
    (getOrCreateUser none (getOrCreateUser none ⟨[], 1⟩ "u1" 7
        (some "Alice")).2 "u1" 7 (some "Bob")).2
        = (getOrCreateUser none ⟨[], 1⟩ "u1" 7 (some "Alice")).2 ∧
    (getOrCreateCourse none ⟨[], 1⟩ 9 3 ⟨some "Calc", none⟩).1
        = .ok ⟨1, 9, 3, some "Calc", none⟩ ∧
    (getOrCreateCourse none (getOrCreateCourse none ⟨[], 1⟩ 9 3
        ⟨some "Calc", none⟩).2 9 3 ⟨some "Calculus", some "u"⟩).1
        = .ok (applyCourseInfo ⟨some "Calculus", some "u"⟩
            ⟨1, 9, 3, some "Calc", none⟩) ∧
    ((getOrCreateCourse none (getOrCreateCourse none ⟨[], 1⟩ 9 3
        ⟨some "Calc", none⟩).2 9 3 ⟨some "Calculus", some "u"⟩).2).rows.filter
        (courseKey 9 3)
        = [applyCourseInfo ⟨some "Calculus", some "u"⟩
            ⟨1, 9, 3, some "Calc", none⟩] :=
  getOrCreate_second_call_behavior ⟨[], 1⟩ ⟨[], 1⟩ "u1" 7 9 3
    (some "Alice") (some "Bob") ⟨some "Calc", none⟩
    ⟨some "Calculus", some "u"⟩ rfl rfl

/-! ### Data-share opt-outs: getOrCreateOptOutDetails, saveUserOptOut -/

/-- A row of the opt_outs table; presence means the user opted out of sharing
with that credential.  Natural key: (user_id, credential_id). -/
structure OptOutRow where
  user_id : Nat
  credential_id : Nat
deriving Repr, DecidableEq

/-- The where clause on the natural key of an opt-out row. -/
def optOutKey (uid cid : Nat) (r : OptOutRow) : Bool :=
  r.user_id == uid && r.credential_id == cid

/-- What the caller of saveUserOptOut observes: a callback with no error, a
callback with an error, an escaped javascript exception, or no callback
invocation at all. -/
inductive CallbackOutcome
  | ok
  | err (e : ApiError)
  | thrown
  | nocall
deriving Repr, DecidableEq

/-- The share field of the request body: boolean true, boolean false, or any
other javascript value. -/
inductive ShareVal
  | tru
  | fls
  | other
deriving Repr, DecidableEq

/-- getOrCreateOptOutDetails: findOrCreate on (user id, credential id); a
store failure is wrapped as code 500, otherwise the found or created row is
returned. -/
def getOrCreateOptOutDetails (storeFail : Option String)
    (store : List OptOutRow) (uid cid : Nat) :
    Except ApiError OptOutRow × List OptOutRow :=
  match storeFail with
  | some m => (.error ⟨500, m⟩, store)
  | none =>
    match store.find? (optOutKey uid cid) with
    | some r => (.ok r, store)
    | none => (.ok ⟨uid, cid⟩, store ++ [⟨uid, cid⟩])

/-- saveUserOptOut.  share false: getOrCreateOptOutDetails; on an error other
than 404 the handler evaluates a log call whose object literal reads the
undeclared variable id, which raises a ReferenceError before the callback
line is reached; on success the callback is invoked with no error.
share true: Opt_out.destroy runs as a detached promise whose rejection
handler only logs, and the function returns the callback with no error
unconditionally, so the state change happens (or silently fails) on the
side.  Any other share value: log and return the callback with no error,
with no state change.  focFail and destroyFail are the outcomes of the two
possible store calls. -/
def saveUserOptOut (focFail destroyFail : Option String)
    (store : List OptOutRow) (uid cid : Nat) (share : ShareVal) :
    CallbackOutcome × List OptOutRow :=
  match share with
  | .fls =>
    match getOrCreateOptOutDetails focFail store uid cid with
    | (.error e, s1) =>
      if e.code = 404 then (.nocall, s1) else (.thrown, s1)
    | (.ok _, s1) => (.ok, s1)
  | .tru =>
    match destroyFail with
    | some _ => (.ok, store)
    | none => (.ok, store.filter (fun r => !optOutKey uid cid r))
  | .other => (.ok, store)

/-- C4: the claim is right that a store failure should surface as a 500
error, and the code is wrong: with share true a failing destroy is only
logged and the caller still gets a success callback with the state
unchanged; with share false a failing findOrCreate makes the error handler
read the undeclared variable id and throw a ReferenceError, so the wrapped
500 error never reaches the caller either. -/
theorem saveUserOptOut_swallows_store_failures :
    (∀ store uid cid m,
      saveUserOptOut none (some m) store uid cid .tru = (.ok, store)) ∧
    (∀ store uid cid m,
      saveUserOptOut (some m) none store uid cid .fls
        = (.thrown, store)) := by
  constructor
  · intro store uid cid m
    rfl
  · intro store uid cid m
    simp [saveUserOptOut, getOrCreateOptOutDetails]

/-- C8: a share value that is neither boolean true nor boolean false leaves
the opt-out store untouched for every (user, credential) pair and the
callback is invoked with no error, whatever the store call outcomes would
have been. -/
theorem saveUserOptOut_nonboolean_noop (focFail destroyFail : Option String)
    (store : List OptOutRow) (uid cid : Nat) :
    saveUserOptOut focFail destroyFail store uid cid .other = (.ok, store) :=
  rfl

/-! ### Data uses: getDataUses -/

/-- A row of the credentials table: a data-consuming project, optionally
scoped to a tenant (tenant_id null applies to all tenants), with a global
datashare flag. -/
structure Credential where
  id : Nat
  name : String
  description : String
  anonymous : Bool
  tenant_id : Option Nat
  datashare : Bool
deriving Repr, DecidableEq

/-- One record of the getDataUses response.  The share field is the optedOut
boolean of the source (inverted-field contract). -/
structure DataUseRecord where
  id : Nat
  name : String
  description : String
  anonymous : Bool
  share : Bool
deriving Repr, DecidableEq

/-- The current user carried by the request context. -/
structure UserRef where
  id : Nat
  tenant_id : Nat
deriving Repr, DecidableEq

/-- The auth object of the request context; tenant_id may be absent. -/
structure AuthInfo where
  tenant_id : Option Nat
deriving Repr, DecidableEq

/-- The request context: the auth object itself may be absent (undefined),
and the current user is optional. -/
structure ReqCtx where
  auth : Option AuthInfo
  user : Option UserRef
deriving Repr, DecidableEq

/-- The where clause of the credentials query of getDataUses: the credential
is scoped to the requesting tenant with datashare enabled, or unscoped. -/
def credWhere (tid : Nat) (c : Credential) : Bool :=
  (c.tenant_id == some tid && c.datashare) || c.tenant_id == none

/-- The per-credential reshaping of getDataUses.  With no current user the
query has no user include, dataUse.users is undefined and optedOut is true;
with a current user the left-joined users list holds the user exactly when
an opt-out row links the user to the credential and the user belongs to the
requesting tenant, and optedOut is true when that list is empty. -/
def toDataUseRecord (tid : Nat) (user : Option UserRef)
    (optOuts : List OptOutRow) (c : Credential) : DataUseRecord :=
  let optedOut : Bool :=
    match user with
    | none => true
    | some u => !(u.tenant_id == tid && optOuts.any (optOutKey u.id c.id))
  ⟨c.id, c.name, c.description, c.anonymous, optedOut⟩

/-- The guard message of getDataUses. -/
def preventedMsg : String :=
  "Prevented getting the projects that have access to the current user data"

/-- The result of getDataUses: an error callback, an escaped javascript
exception, or the record list. -/
inductive DataUsesResult
  | err (e : ApiError)
  | thrown
  | ok (records : List DataUseRecord)
deriving Repr, DecidableEq

/-- getDataUses.  The guard tests not ctx or not ctx.auth.tenant_id: a null
context yields the 500 guard error, a context without an auth object makes
the tenant_id access itself throw a TypeError, and a missing or zero
tenant_id (both falsy) yields the guard error.  Otherwise the credentials
matching the where clause are mapped to response records; a store failure is
wrapped as 500. -/
def getDataUses (ctx : Option ReqCtx) (storeFail : Option String)
    (creds : List Credential) (optOuts : List OptOutRow) : DataUsesResult :=
  match ctx with
  | none => .err ⟨500, preventedMsg⟩
  | some c =>
    match c.auth with
    | none => .thrown
    | some a =>
      match a.tenant_id with
      | none => .err ⟨500, preventedMsg⟩
      | some 0 => .err ⟨500, preventedMsg⟩
      | some (t + 1) =>
        match storeFail with
        | some m => .err ⟨500, m⟩
        | none =>
          .ok ((creds.filter (credWhere (t + 1))).map
            (toDataUseRecord (t + 1) c.user optOuts))

/-- C5: for every successful getDataUses call, a credential with datashare
false and a tenant_id that is non-null (and in particular different from the
caller's tenant) contributes no output record, and a credential with null
tenant_id always contributes an output record, assuming the distinct
primary-key ids of the credentials table. -/
theorem getDataUses_tenant_scope (tid : Nat) (user : Option UserRef)
    (creds : List Credential) (optOuts : List OptOutRow) (c0 : Credential)
    (recs : List DataUseRecord)
    (htid : tid ≠ 0)
    (hnd : (creds.map Credential.id).Nodup)
    (hc : c0 ∈ creds)
    (hok : getDataUses (some ⟨some ⟨some tid⟩, user⟩) none creds optOuts
        = .ok recs) :
    (c0.datashare = false → ∀ t2, c0.tenant_id = some t2 → t2 ≠ tid →
      ∀ rec ∈ recs, rec.id ≠ c0.id) ∧
    (c0.tenant_id = none → ∃ rec ∈ recs, rec.id = c0.id) := by
  obtain ⟨t, rfl⟩ := Nat.exists_eq_succ_of_ne_zero htid
  simp only [getDataUses, DataUsesResult.ok.injEq] at hok
  subst hok
  constructor
  · intro hds t2 ht2 hne rec hrec hid
    obtain ⟨c1, hc1, rfl⟩ := List.mem_map.mp hrec
    have hc1f := List.mem_filter.mp hc1
    simp only [toDataUseRecord] at hid
    have hsame : c1 = c0 := List.inj_on_of_nodup_map hnd hc1f.1 hc hid
    have hpred := hc1f.2
    rw [hsame] at hpred
    simp [credWhere, hds, ht2] at hpred
  · intro ht
    refine ⟨toDataUseRecord (t + 1) user optOuts c0,
      List.mem_map.mpr ⟨c0, List.mem_filter.mpr ⟨hc, ?_⟩, rfl⟩, ?_⟩
    · simp [credWhere, ht]
    · simp [toDataUseRecord]

/-- Witness for C5 with caller tenant 1: the foreign non-sharing credential
1 (tenant 2, datashare false) never appears, the unscoped credential 2
always appears. -/
theorem getDataUses_tenant_scope_witness :
    (∀ rec ∈ [(⟨2, "B", "e", true, true⟩ : DataUseRecord)], rec.id ≠ 1) ∧
    (∃ rec ∈ [(⟨2, "B", "e", true, true⟩ : DataUseRecord)], rec.id = 2) := by
  constructor
  · exact (getDataUses_tenant_scope 1 none
      [⟨1, "A", "d", false, some 2, false⟩, ⟨2, "B", "e", true, none, false⟩]
      [] ⟨1, "A", "d", false, some 2, false⟩ [⟨2, "B", "e", true, true⟩]
      (by decide) (by decide) (by decide) rfl).1 rfl 2 rfl (by decide)
  · exact (getDataUses_tenant_scope 1 none
      [⟨1, "A", "d", false, some 2, false⟩, ⟨2, "B", "e", true, none, false⟩]
      [] ⟨2, "B", "e", true, none, false⟩ [⟨2, "B", "e", true, true⟩]
      (by decide) (by decide) (by decide) rfl).2 rfl

/-- C6: a getDataUses call whose context carries a tenant id but no current
user returns records that all have share true: without a user there is no
include, dataUse.users is undefined and every record is marked opted out by
default. -/
theorem getDataUses_no_user_all_share_true (tid : Nat)
    (creds : List Credential) (optOuts : List OptOutRow)
    (recs : List DataUseRecord) (htid : tid ≠ 0)
    (hok : getDataUses (some ⟨some ⟨some tid⟩, none⟩) none creds optOuts
        = .ok recs) :
    ∀ rec ∈ recs, rec.share = true := by
  obtain ⟨t, rfl⟩ := Nat.exists_eq_succ_of_ne_zero htid
  simp only [getDataUses, DataUsesResult.ok.injEq] at hok
  subst hok
  intro rec hrec
  obtain ⟨c1, hc1, rfl⟩ := List.mem_map.mp hrec
  simp [toDataUseRecord]

/-- Witness for C6: tenant 1, no user, one unscoped credential; the single
returned record has share true. -/
theorem getDataUses_no_user_all_share_true_witness :
    (⟨2, "B", "e", true, true⟩ : DataUseRecord).share = true :=
  getDataUses_no_user_all_share_true 1 [⟨2, "B", "e", true, none, false⟩]
    [] [⟨2, "B", "e", true, true⟩] (by decide) rfl
    ⟨2, "B", "e", true, true⟩ (by decide)

/-- C9: a non-null context without an auth object makes getDataUses throw
(the guard dereferences ctx.auth.tenant_id unconditionally) instead of
returning the 500 error result, and the error result is reachable only when
the context is null or the tenant id is falsy (absent or zero). -/
theorem getDataUses_guard_paths (ctx : Option ReqCtx)
    (creds : List Credential) (optOuts : List OptOutRow) :
    (∀ c, ctx = some c → c.auth = none →
      getDataUses ctx none creds optOuts = .thrown) ∧
    (∀ e, getDataUses ctx none creds optOuts = .err e →
      ctx = none ∨ ∃ c a, ctx = some c ∧ c.auth = some a ∧
        (a.tenant_id = none ∨ a.tenant_id = some 0)) := by
  constructor
  · rintro c rfl hauth
    simp [getDataUses, hauth]
  · intro e he
    rcases ctx with _ | c
    · exact Or.inl rfl
    · rcases c with ⟨auth, user⟩
      rcases auth with _ | a
      · simp [getDataUses] at he
      · rcases a with ⟨tidq⟩
        rcases tidq with _ | n
        · exact Or.inr ⟨⟨some ⟨none⟩, user⟩, ⟨none⟩, rfl, rfl, Or.inl rfl⟩
        · rcases n with _ | t
          · exact Or.inr
              ⟨⟨some ⟨some 0⟩, user⟩, ⟨some 0⟩, rfl, rfl, Or.inr rfl⟩
          · simp [getDataUses] at he

/-- Witness for C9: a context without auth throws; a context whose auth has
no tenant id reaches the error branch and satisfies the disjunction. -/
theorem getDataUses_guard_paths_witness :
    getDataUses (some ⟨none, none⟩) none [] [] = .thrown ∧
    (some (⟨some ⟨none⟩, none⟩ : ReqCtx) = none ∨
      ∃ c a, some (⟨some ⟨none⟩, none⟩ : ReqCtx) = some c ∧
        c.auth = some a ∧
        (a.tenant_id = none ∨ a.tenant_id = some 0)) :=
  ⟨(getDataUses_guard_paths (some ⟨none, none⟩) [] []).1 ⟨none, none⟩
      rfl rfl,
    (getDataUses_guard_paths (some ⟨some ⟨none⟩, none⟩) [] []).2
      ⟨500, preventedMsg⟩ rfl⟩

/-! ### Tenants: getTenant -/

/-- A row of the tenants table, looked up by API domain and LTI key. -/
structure TenantRow where
  id : Nat
  tenant_api_domain : String
  lti_key : String
deriving Repr, DecidableEq

/-- The Joi alphanum character class: ASCII letters and digits. -/
def isAlphanumChar (c : Char) : Bool := c.isAlpha || c.isDigit

/-- The Joi constraint on the LTI key: exactly 32 alphanumeric characters. -/
def validLtiKey (s : String) : Bool :=
  s.length == 32 && s.all isAlphanumChar

/-- The Joi validation of getTenant.  The apiDomain key is a required
string; the ltiKey key is constrained to a 32-character alphanumeric string
but is NOT marked required in the schema, so an absent ltiKey passes
validation. -/
def getTenantValidationError (apiDomain ltiKey : Option String) :
    Option ApiError :=
  match apiDomain with
  | none => some ⟨400, "apiDomain is required"⟩
  | some _ =>
    match ltiKey with
    | none => none
    | some k =>
      if validLtiKey k then none
      else some ⟨400, "ltiKey must be a 32 character alphanumeric string"⟩

/-- getTenant: validation first, then findOne on (domain, key); the second
component records whether the store was queried.  A store failure is
wrapped as 500 and a missing tenant is a 404.  A where clause carrying an
absent (undefined) key is modelled as matching no row. -/
def getTenant (apiDomain ltiKey : Option String) (storeFail : Option String)
    (store : List TenantRow) : Except ApiError TenantRow × Bool :=
  match getTenantValidationError apiDomain ltiKey with
  | some e => (.error e, false)
  | none =>
    match storeFail with
    | some m => (.error ⟨500, m⟩, true)
    | none =>
      match store.find? (fun t =>
          t.tenant_api_domain == apiDomain.getD ""
            && some t.lti_key == ltiKey) with
      | some t => (.ok t, true)
      | none =>
        (.error ⟨404, "A Tenant(Canvas) instance with the specified api domain and consumer lti key could not be found"⟩,
          true)

/-- C7 counterexample: an absent ltiKey does not produce the claimed
ValidationError 400 without store access: the schema does not mark ltiKey
required, validation passes, the store is queried, and the result here is
the 404 lookup failure. -/
theorem getTenant_absent_key_queries_store :
    getTenantValidationError (some "lrs.example.edu") none = none ∧
    getTenant (some "lrs.example.edu") none none []
      = (.error ⟨404, "A Tenant(Canvas) instance with the specified api domain and consumer lti key could not be found"⟩,
          true) :=
  ⟨rfl, rfl⟩

/-- C7 (amended): a present ltiKey that is not exactly 32 alphanumeric
characters yields ValidationError 400 and the store is never queried,
whatever the store contents or failure mode; an absent ltiKey, however,
passes validation and the store is queried. -/
theorem getTenant_invalid_key_no_store (apiDomain k : String)
    (storeFail : Option String) (store : List TenantRow)
    (hk : validLtiKey k = false) :
    getTenant (some apiDomain) (some k) storeFail store
      = (.error ⟨400, "ltiKey must be a 32 character alphanumeric string"⟩,
          false) ∧
    (getTenant (some apiDomain) none storeFail store).2 = true := by
  constructor
  · simp [getTenant, getTenantValidationError, hk]
  · show (match storeFail with
      | some m => ((.error ⟨500, m⟩ : Except ApiError TenantRow), true)
      | none =>
        match store.find? (fun (t : TenantRow) =>
            t.tenant_api_domain == (some apiDomain).getD ""
              && some t.lti_key == none) with
        | some t => (.ok t, true)
        | none =>
          (.error ⟨404, "A Tenant(Canvas) instance with the specified api domain and consumer lti key could not be found"⟩,
            true)).2 = true
    rcases storeFail with _ | m
    · rcases hfind : store.find? (fun (t : TenantRow) =>
          t.tenant_api_domain == (some apiDomain).getD ""
            && some t.lti_key == none) with _ | t <;> simp [hfind]
    · rfl

/-- Witness for C7 on a short key: validation fails without store access,
and with the key absent the store is queried. -/
theorem getTenant_invalid_key_no_store_witness :
    getTenant (some "lrs.example.edu") (some "short") none
        [⟨1, "lrs.example.edu", "k"⟩]
      = (.error ⟨400, "ltiKey must be a 32 character alphanumeric string"⟩,
          false) ∧
    (getTenant (some "lrs.example.edu") none none
        [⟨1, "lrs.example.edu", "k"⟩]).2 = true :=
  getTenant_invalid_key_no_store "lrs.example.edu" "short" none
    [⟨1, "lrs.example.edu", "k"⟩] (by decide)

/-- C10: a getUserByExternalId call with valid typed arguments that match no
stored user succeeds with an absent user rather than reporting an error,
while getCourse reports a missing course as a 404 error. -/
theorem getUserByExternalId_absent_is_ok (ustore : List UserRow)
    (cstore : List CourseRow) (eid : String) (tid cid : Nat)
    (hu : ∀ r ∈ ustore, userKey eid tid r = false)
    (hc : ∀ r ∈ cstore, r.id ≠ cid) :
    getUserByExternalId none ustore eid tid = .ok none ∧
    getCourse none cstore cid
      = .error ⟨404, "Failed to retrieve the course"⟩ := by
  constructor
  · have hfind : ustore.find? (userKey eid tid) = none := by
      rw [List.find?_eq_none]
      intro r hr
      simp [hu r hr]
    simp [getUserByExternalId, hfind]
  · have hfind : cstore.find? (fun r => r.id == cid) = none := by
      rw [List.find?_eq_none]
      intro r hr
      simp [hc r hr]
    simp [getCourse, hfind]

/-- Witness for C10 on a store without the requested user or course. -/
theorem getUserByExternalId_absent_is_ok_witness :
    getUserByExternalId none [⟨1, "other", 7, none⟩] "u1" 7 = .ok none ∧
    getCourse none [⟨1, 9, 3, none, none⟩] 2
      = .error ⟨404, "Failed to retrieve the course"⟩ :=
  getUserByExternalId_absent_is_ok [⟨1, "other", 7, none⟩]
    [⟨1, 9, 3, none, none⟩] "u1" 7 2 (by decide) (by decide)
